import Mathlib

/-!
Shallow embedding of the protocol codec and program compiler/extractor of
`src/syrpp/pump_conn.py` (class `SyrPump`).  Python dictionaries become
association lists, Python numbers become `Int`/`ℚ` together with an
`isFloat` tag where the int/float distinction matters, and every code path
that can raise (`assert`, `IndexError`, `KeyError`, `ValueError`) returns
`none` / a failure constructor instead.
-/

namespace SyrPump

/-- Value side of a registry table: Python stores either a plain string or a
list of alias strings. -/
inductive DVal where
  | scalar (s : String)
  | aliases (l : List String)
deriving DecidableEq

/-- `SyrPump.COMMAND` table. -/
def COMMAND : List (String × DVal) := [
  ("DIA", .scalar "diameter"),
  ("PHN", .scalar "phase"),
  ("FUN", .scalar "function"),
  ("RAT", .scalar "rate"),
  ("VOL", .scalar "volume"),
  ("DIR", .scalar "direction"),
  ("DIS", .scalar "volume dispensed"),
  ("CLD", .scalar "clear volume dispensed"),
  ("SAF", .scalar "com mode"),
  ("AL", .scalar "alarm"),
  ("PF", .scalar "power fail"),
  ("TRG", .scalar "trigger"),
  ("BP", .scalar "key beep"),
  ("OUT", .scalar "ttl output"),
  ("IN", .scalar "ttl input"),
  ("BUZ", .scalar "buzzer"),
  ("VER", .scalar "firmware version"),
  ("RUN", .scalar "start program"),
  ("STP", .scalar "stop program")]

/-- `SyrPump.PROMPT` table (keys are the 1-character status codes). -/
def PROMPT : List (String × DVal) := [
  ("I", .scalar "infusing"),
  ("W", .scalar "withdrawing"),
  ("S", .scalar "pumping program stopped"),
  ("P", .scalar "pumping program paused"),
  ("T", .scalar "pause phase"),
  ("U", .scalar "operational trigger wait (user wait)")]

/-- `SyrPump.ALARM` table. -/
def ALARM : List (String × DVal) := [
  ("R", .scalar "pump was reset (power was interrupted)"),
  ("S", .scalar "pump motor stalled"),
  ("T", .scalar "safe mode communications time out"),
  ("E", .scalar "pumping program error"),
  ("O", .scalar "pumping program phase is out of range")]

/-- Device-reported error kinds, the values of `SyrPump.ERROR`
(exception classes in the Python source). -/
inductive DeviceError where
  | commandNotRecognized
  | commandNotAvailable
  | dataOutOfRange
  | invalidComPacket
  | commandIgnored
deriving DecidableEq

/-- `SyrPump.ERROR` table: error token → exception kind. -/
def ERROR : List (String × DeviceError) := [
  ("", .commandNotRecognized),
  ("NA", .commandNotAvailable),
  ("OOR", .dataOutOfRange),
  ("COM", .invalidComPacket),
  ("IGN", .commandIgnored)]

/-- `SyrPump.PUMP_DIRECTION` table. -/
def PUMP_DIRECTION : List (String × DVal) := [
  ("INF", .scalar "infuse"),
  ("WDR", .scalar "withdraw"),
  ("REV", .scalar "reverse")]

/-- `SyrPump.TRIGGER` table (edge/level primitives, with aliases). -/
def TRIGGER : List (String × DVal) := [
  ("F", .aliases ["falling edge", "falling"]),
  ("R", .aliases ["rising edge", "rising"]),
  ("L", .aliases ["low level", "low"]),
  ("H", .aliases ["high level", "high"])]

/-- `SyrPump.TRIGGER_START_STOP` table: (start, stop) pattern → device code. -/
def TRIGGER_START_STOP : List (String × DVal) := [
  ("FF", .scalar "FT"),
  ("FR", .scalar "FH"),
  ("RR", .scalar "F2"),
  ("RF", .scalar "LE"),
  ("F_", .scalar "ST"),
  ("R_", .scalar "T2"),
  ("_F", .scalar "SP"),
  ("_R", .scalar "P2"),
  ("L_", .scalar "RL"),
  ("H_", .scalar "RH"),
  ("_L", .scalar "SL"),
  ("_H", .scalar "SH"),
  ("__", .scalar "OF")]

/-- `SyrPump.TRIGGER_SETUP` table: device code → human setup name. -/
def TRIGGER_SETUP : List (String × DVal) := [
  ("FT", .scalar "foot switch"),
  ("FH", .scalar "foot switch hold"),
  ("F2", .scalar "foot switch reverse"),
  ("LE", .scalar "level"),
  ("ST", .scalar "start only"),
  ("T2", .scalar "start only reversed"),
  ("SP", .scalar "stop only"),
  ("P2", .scalar "stop only reversed"),
  ("RL", .scalar "start on low"),
  ("RH", .scalar "start on high"),
  ("SL", .scalar "stop on low"),
  ("SH", .scalar "stop on high"),
  ("OF", .scalar "trigger off")]

/-- `SyrPump.PHASE_FUNCTION` table. -/
def PHASE_FUNCTION : List (String × DVal) := [
  ("RAT", .scalar "rate"),
  ("INC", .scalar "increment"),
  ("DEC", .scalar "decrement"),
  ("STP", .scalar "stop"),
  ("JMP", .scalar "jump"),
  ("LOP", .scalar "loop for"),
  ("LPS", .scalar "loop start"),
  ("LPE", .scalar "loop end"),
  ("PAS", .scalar "pause"),
  ("IF", .scalar "if"),
  ("EVN", .scalar "event trap"),
  ("EVR", .scalar "event reset"),
  ("BEP", .scalar "beep"),
  ("OUT", .scalar "output")]

/-- `SyrPump.PHASE_FUN_DATA` table: function code → datum kind. -/
def PHASE_FUN_DATA : List (String × String) := [
  ("JMP", "phase"),
  ("LOP", "count"),
  ("PAS", "number"),
  ("IF", "phase"),
  ("EVN", "phase"),
  ("OUT", "ttl")]

/-- `SyrPump.VOLUME_UNITS` table. -/
def VOLUME_UNITS : List (String × DVal) := [
  ("U", .aliases ["μl", "ul", "microliter"]),
  ("M", .aliases ["ml", "mL", "milliliter", "cc"])]

/-- `SyrPump.TIME_UNITS` table. -/
def TIME_UNITS : List (String × DVal) := [
  ("M", .aliases ["min", "mn", "minute"]),
  ("H", .aliases ["h", "hr", "hour"])]

/-- `SyrPump.RATE_FUNCTION`. -/
def RATE_FUNCTION : List String := ["RAT", "INC", "DEC"]

/-- `SyrPump.RATE_PARAM`. -/
def RATE_PARAM : List String := ["RAT", "VOL", "DIR"]

/-- `SyrPump.DATA_RANGE` table: field kind → inclusive (lo, hi) bounds. -/
def DATA_RANGE : List (String × (Int × Int)) := [
  ("address", (0, 99)),
  ("phase", (1, 41)),
  ("number", (0, 99)),
  ("count", (1, 99)),
  ("ttl", (0, 1)),
  ("timeout", (0, 255))]

/-- Canonical name of a table value: `v[0]` for a list (Python raises
`IndexError` on an empty list, modelled by `none`), the string itself for a
scalar. -/
def canonOf : DVal → Option String
  | .scalar s => some s
  | .aliases l => l.head?

/-- `SyrPump._from_dict_key`: decode a code into its canonical name.
`none` models the failed `assert k in d.keys()` (and `v[0]` on an empty
alias list). -/
def from_dict_key (d : List (String × DVal)) (k : String) : Option String :=
  match d.find? (fun p => p.1 == k) with
  | none => none
  | some p => canonOf p.2

/-- Membership test used by `SyrPump._from_dict_value`:
`isinstance(_v, list) and v in _v or _v == v`. -/
def valMatches (v : String) : DVal → Bool
  | .scalar s => s == v
  | .aliases l => l.contains v

/-- `SyrPump._from_dict_value`: encode a name/alias into its code; `none`
models the failed `assert len(k) == 1` (zero or several matching entries). -/
def from_dict_value (d : List (String × DVal)) (v : String) : Option String :=
  match d.filter (fun p => valMatches v p.2) with
  | [p] => some p.1
  | _ => none

/-- `SyrPump._check_range`: `true` iff the type is known and
`r[0] <= v <= r[1]`. -/
def check_range (v : Int) (ty : String) : Bool :=
  match DATA_RANGE.find? (fun p => p.1 == ty) with
  | none => false
  | some p => decide (p.2.1 ≤ v ∧ v ≤ p.2.2)

/-- Status field of a parsed response: exactly one of prompt or alarm. -/
inductive StatusField where
  | prompt (c : Char)
  | alarm (c : Char)
deriving DecidableEq

/-- The `res` dictionary built by `SyrPump._cmd`. -/
structure PumpResponse where
  address : Nat
  status : StatusField
  data : Option String
deriving DecidableEq

/-- Outcome of `SyrPump._cmd`'s response handling: a response (with the
warning message emitted for an alarm, if any), a device-reported error
raised from the `ERROR` table, or a fatal local failure (failed `assert`,
`ValueError`, `IndexError`). -/
inductive CmdOutcome where
  | ok (r : PumpResponse) (warning : Option String)
  | deviceError (e : DeviceError)
  | fatal
deriving DecidableEq

/-- Python `int()` of a digit string (protocol addresses are plain digits;
sign/whitespace forms accepted by Python do not occur in frames).
`none` models the `ValueError` on a non-numeric string. -/
def pyIntOfDigits (s : List Char) : Option Nat :=
  if s.isEmpty then none
  else if s.all Char.isDigit then
    some (s.foldl (fun acc c => acc * 10 + (c.toNat - 48)) 0)
  else none

/-- Data-field handling at the end of `SyrPump._cmd`: an empty data field is
dropped, a field starting with `?` is an error token looked up in `ERROR`
(raised), anything else is returned as `res['data']`. -/
def finishData (addr : Nat) (st : StatusField) (warn : Option String)
    (data : List Char) : CmdOutcome :=
  match data with
  | [] => .ok ⟨addr, st, none⟩ warn
  | c :: rest =>
    if c == '?' then
      match ERROR.find? (fun p => p.1 == String.mk rest) with
      | none => .fatal
      | some p => .deviceError p.2
    else .ok ⟨addr, st, some (String.mk data)⟩ warn

/-- Response parsing of `SyrPump._cmd` (lines 653-676): address from the
first two characters, three-way classification on the third character
(prompt letter / `A` alarm / unknown → fatal), alarm `A` must be followed
by `?` and a known alarm code (whose message is emitted as a warning),
then the remaining data field is classified by `finishData`. -/
def cmdParse (response : String) : CmdOutcome :=
  let cs := response.toList
  match pyIntOfDigits (cs.take 2) with
  | none => .fatal
  | some addr =>
    match cs.get? 2 with
    | none => .fatal
    | some status =>
      if (PROMPT.find? (fun p => p.1 == status.toString)).isSome then
        finishData addr (.prompt status) none (cs.drop 3)
      else if status == 'A' then
        match cs.get? 3, cs.get? 4 with
        | some q, some alarmType =>
          if q == '?' then
            match from_dict_key ALARM alarmType.toString with
            | none => .fatal
            | some msg => finishData addr (.alarm alarmType) (some msg) (cs.drop 5)
          else .fatal
        | _, _ => .fatal
      else .fatal

example : cmdParse "01I" = .ok ⟨1, .prompt 'I', none⟩ none := by decide
example : cmdParse "05A?S" = .ok ⟨5, .alarm 'S', none⟩ (some "pump motor stalled") := by decide
example : cmdParse "02S?OOR" = .deviceError .dataOutOfRange := by decide
example : cmdParse "02?OOR" = .fatal := by decide

/-- A Python number: the exact value `mant / 10 ^ scale` (floats are
modelled as exact decimals; on the decimal literals used by the spec's
examples Python's binary floats round and print the same way) and whether
it is a `float` (as opposed to an `int`) -- `round` and `str` behave
differently on the two types. -/
structure PyNum where
  mant : Int
  scale : Nat
  isFloat : Bool
deriving DecidableEq

/-- The rational value of a Python number. -/
def PyNum.val (x : PyNum) : ℚ := (x.mant : ℚ) / 10 ^ x.scale

/-- `round(value, d) * 10 ^ d` for `value = mant / 10 ^ s`: round half to
even (Python's `round`). -/
def roundScaled (mant : Int) (s d : Nat) : Int :=
  let num := mant * 10 ^ d
  let den : Int := 10 ^ s
  let q := num.fdiv den
  let r := num.fmod den
  if 2 * r < den then q
  else if den < 2 * r then q + 1
  else if q % 2 = 0 then q else q + 1

/-- Python `round(x, d)`: half-even rounding to `d` decimal places for a
float; the identity on an int (`d ≥ 0`). -/
def pyRound (x : PyNum) (d : Nat) : PyNum :=
  if x.isFloat then ⟨roundScaled x.mant x.scale d, d, true⟩
  else x

/-- Drop trailing `'0'` characters. -/
def stripZeros (s : List Char) : List Char :=
  (s.reverse.dropWhile (fun c => c == '0')).reverse

/-- Left-pad with `'0'` to length `d`. -/
def padLeftZeros (s : List Char) (d : Nat) : List Char :=
  List.replicate (d - s.length) '0' ++ s

/-- Python `str` of the float `m / 10 ^ d` (`m ≥ 0`): integer part, a dot,
and the fractional digits with trailing zeros dropped (at least one
fractional digit, so an integral float prints as `n.0`). -/
def renderFixed (m d : Nat) : String :=
  let ip := m / 10 ^ d
  let fp := m % 10 ^ d
  let frac := stripZeros (padLeftZeros (Nat.repr fp).toList d)
  String.mk ((Nat.repr ip).toList ++ '.' :: (if frac.isEmpty then ['0'] else frac))

/-- `int('9' * max_digits)`: `10 ^ max_digits − 1`. -/
def pyNines (maxDigits : Nat) : Nat := 10 ^ maxDigits - 1

/-- Python `str(n)` of an integer. -/
def intRepr (n : Int) : String :=
  if n < 0 then "-" ++ Nat.repr n.natAbs else Nat.repr n.toNat

/-- Rounding-and-truncation tail of `SyrPump._float` (after the range
assertion): `f = str(round(f, max_decimal))`, then keep only the trailing
`max_digits + 1` characters (`max_digits` when there is no decimal point)
if the rendered text is at least that long. -/
def truncRender (x : PyNum) (maxDigits maxDecimal : Nat) : String :=
  let r := pyRound x maxDecimal
  let s := if r.isFloat then renderFixed r.mant.toNat r.scale
           else intRepr r.mant
  let cs := s.toList
  String.mk (if cs.contains '.' then
      (if maxDigits + 1 ≤ cs.length then cs.drop (cs.length - (maxDigits + 1)) else cs)
    else
      (if maxDigits ≤ cs.length then cs.drop (cs.length - maxDigits) else cs))

/-- `SyrPump._float`: assert `0 <= f <= int('9'*max_digits)` (a failed
assertion, or `int('')` when `max_digits = 0`, is `none`), then round,
render and truncate from the most-significant end.  The range test
compares the exact value: `mant / 10^scale < 0` iff `mant < 0`, and
`nines < mant / 10^scale` iff `nines * 10^scale < mant`. -/
def pyFloat (x : PyNum) (maxDigits maxDecimal : Nat) : Option String :=
  if maxDigits = 0 then none
  else if x.mant < 0 ∨ (pyNines maxDigits : Int) * 10 ^ x.scale < x.mant then none
  else some (truncRender x maxDigits maxDecimal)

example : pyFloat ⟨314159, 5, true⟩ 4 3 = some "3.142" := by decide
example : pyFloat ⟨12345, 0, true⟩ 4 3 = none := by decide
example : pyFloat ⟨12345, 1, true⟩ 4 3 = some "234.5" := by decide
example : pyFloat ⟨45, 0, false⟩ 2 1 = some "45" := by decide
example : pyFloat ⟨5, 0, false⟩ 2 1 = some "5" := by decide
example : pyFloat ⟨9999, 1, true⟩ 4 3 = some "999.9" := by decide

/-- Inline datum of a decoded phase function: `int(d)` of one digit,
`float(d)` of a `units.tenths` pattern (denoting `units + tenths / 10`),
or the `'trigger'` sentinel substituted for a zero pause datum. -/
inductive FunDatum where
  | intD (n : Nat)
  | fracD (units tenths : Nat)
  | trigger
deriving DecidableEq

/-- The dictionary returned by `SyrPump.get_function` with `code=True`:
the function code and the optional inline datum. -/
structure FunRec where
  function : String
  data : Option FunDatum
deriving DecidableEq

/-- Zero test used by `ret['data'] == 0` (`0.0 == 0` holds in Python). -/
def datumIsZero : FunDatum → Bool
  | .intD n => n == 0
  | .fracD u t => u == 0 && t == 0
  | .trigger => false

/-- Tail of `SyrPump.get_function`: `assert f in PHASE_FUNCTION`, then for
`PAS` replace a zero datum with the `'trigger'` sentinel (a bare `PAS`
with no datum is a `KeyError` on `ret['data']`, modelled by `none`). -/
def finishFunction (f : String) (d : Option FunDatum) : Option FunRec :=
  if (PHASE_FUNCTION.find? (fun p => p.1 == f)).isSome then
    if f == "PAS" then
      match d with
      | none => none
      | some dd => some ⟨f, some (if datumIsZero dd then .trigger else dd)⟩
    else some ⟨f, d⟩
  else none

/-- General-rule branch of `SyrPump.get_function`: `(d := data[-2]).isdigit()`
reads the single second-to-last character (an `IndexError` on a string
shorter than 2 is `none`) although `f = data[:-2]` strips two characters;
otherwise the whole string is the function code. -/
def generalRule (cs : List Char) : Option FunRec :=
  if cs.length < 2 then none
  else
    let d := cs.getD (cs.length - 2) ' '
    if d.isDigit then
      let f := String.mk (cs.take (cs.length - 2))
      if PHASE_FUN_DATA.any (fun p => p.1 == f) then
        finishFunction f (some (.intD (d.toNat - 48)))
      else none
    else finishFunction (String.mk cs) none

/-- `SyrPump.get_function` (with `code=True`), decoding the response data
field: first try `re.match('[0-9]\.[0-9]', data[-3:])` (only `PAS` may
carry an `n.n` datum), then fall back to the general trailing-datum rule. -/
def getFunction (data : String) : Option FunRec :=
  let cs := data.toList
  match cs.drop (cs.length - 3) with
  | [a, b, c] =>
    if a.isDigit && b == '.' && c.isDigit then
      let f := String.mk (cs.take (cs.length - 3))
      if f == "PAS" then finishFunction "PAS" (some (.fracD (a.toNat - 48) (c.toNat - 48)))
      else none
    else generalRule cs
  | _ => generalRule cs

example : getFunction "RAT" = some ⟨"RAT", none⟩ := by decide
example : getFunction "STP" = some ⟨"STP", none⟩ := by decide
example : getFunction "JMP12" = some ⟨"JMP", some (.intD 1)⟩ := by decide
example : getFunction "PAS1.5" = some ⟨"PAS", some (.fracD 1 5)⟩ := by decide
example : getFunction "PAS00" = some ⟨"PAS", some .trigger⟩ := by decide
example : getFunction "PAS" = none := by decide

/-- One pass of the sweep in `SyrPump.get_config`: for phases 1..41 in
order, read back the `FUN` response data (`dev phase`) and decode it
(`p.get_function(address=a, code=True)`); for rate-class functions the
extractor also reads back rate/volume/direction, which adds follow-up
keys to the record but does not affect the function field or the phase
count, so those keys are not modelled. -/
def progSweep (dev : Nat → String) : Option (List FunRec) :=
  ((List.range 41).map (fun i => i + 1)).mapM (fun ph => getFunction (dev ph))

/-- The `while prog[-1]['function'] == 'STP': prog.pop(-1)` loop of
`SyrPump.get_config`, acting on the reversed list: `prog[-1]` on an empty
list raises `IndexError`, modelled by `none`. -/
def popTrailingStops : List FunRec → Option (List FunRec)
  | [] => none
  | r :: rest => if r.function == "STP" then popTrailingStops rest else some (r :: rest)

/-- Trailing-stop trimming of `SyrPump.get_config` (lines 302-304). -/
def trimStops (prog : List FunRec) : Option (List FunRec) :=
  (popTrailingStops prog.reverse).map List.reverse

/-- Final renaming pass of `SyrPump.get_config`:
`phase['function'] = self.PHASE_FUNCTION[phase['function']]` (all
`PHASE_FUNCTION` values are scalar strings; a missing key would be a
`KeyError`, modelled by `none`). -/
def mapFunNames (prog : List FunRec) : Option (List FunRec) :=
  prog.mapM (fun r =>
    match PHASE_FUNCTION.find? (fun p => p.1 == r.function) with
    | some (_, .scalar s) => some ⟨s, r.data⟩
    | _ => none)

/-- The program extractor of `SyrPump.get_config` (`FUN` branch, lines
291-307): sweep phases 1..41, trim trailing stop phases, then map codes to
names. -/
def extractProgram (dev : Nat → String) : Option (List FunRec) :=
  (progSweep dev).bind (fun prog => (trimStops prog).bind mapFunNames)

/-- The command string written by `SyrPump._cmd`:
`''.join([str(addr), cmd, *args])` after `self._check_range(addr,
'address')` (`none` on a failed address range check; the transport and the
device's response are outside this model). -/
def cmdString (a : Int) (c : String) (args : List String) : Option String :=
  if check_range a "address" then some (intRepr a ++ c ++ String.join args) else none

/-- `SyrPump.set_phase`: range-check the phase, then send `PHN`. -/
def setPhase (a : Int) (phase : Int) : Option String :=
  if check_range phase "phase" then cmdString a "PHN" [intRepr phase] else none

/-- A JSON scalar appearing in a config/phase step: an int, a nonnegative
decimal float `m / 10 ^ d`, or a string. -/
inductive StepVal where
  | intV (n : Int)
  | floatV (m : Nat) (d : Nat)
  | strV (s : String)
deriving DecidableEq

/-- Python `str()` of a step value (as `SyrPump._cmd` applies to non-string
arguments). -/
def stepValStr : StepVal → String
  | .intV n => intRepr n
  | .floatV m d => renderFixed m d
  | .strV s => s

/-- Numeric view of a step value (`none` for a string, which would make
Python's arithmetic in `_float` raise a `TypeError`). -/
def stepValNum : StepVal → Option PyNum
  | .intV n => some ⟨n, 0, false⟩
  | .floatV m d => some ⟨(m : Int), d, true⟩
  | .strV _ => none

/-- `SyrPump.set_function`: encode the function name, validate/convert the
inline datum (`'trigger'` → `0`; a numeric pause datum through
`_float(data, 2, 1)`), then send `FUN`. -/
def setFunction (a : Int) (function : String) (data : Option StepVal) : Option String :=
  match from_dict_value PHASE_FUNCTION function with
  | none => none
  | some f =>
    match data with
    | none => cmdString a "FUN" [f]
    | some d =>
      if PHASE_FUN_DATA.any (fun p => p.1 == f) then
        let ds : Option String :=
          if f == "PAS" then
            match d with
            | .strV s => if s == "trigger" then some "0" else some s
            | v => (stepValNum v).bind (fun x => pyFloat x 2 1)
          else some (stepValStr d)
        match ds with
        | none => none
        | some s => cmdString a "FUN" [f, s]
      else none

/-- `SyrPump.set_com_mode`: `basic` forbids a timeout and sends `SAF0`,
`safe` requires one and sends it raw (no range check); any other mode
falls through both branches and sends a bare `SAF`. -/
def setComMode (a : Int) (mode : String) (timeout : Option Int) : Option String :=
  if mode == "basic" then
    match timeout with
    | none => cmdString a "SAF" ["0"]
    | some _ => none
  else if mode == "safe" then
    match timeout with
    | none => none
    | some t => cmdString a "SAF" [intRepr t]
  else cmdString a "SAF" []

/-- `SyrPump.TTL_OUTPUT_PIN`. -/
def TTL_OUTPUT_PIN : List Int := [5]

/-- `SyrPump.set_ttl_output`: assert the pin is supported, range-check the
level, then send `OUT`. -/
def setTtlOutput (a : Int) (level : Int) (pin : Int) : Option String :=
  if TTL_OUTPUT_PIN.contains pin then
    if check_range level "ttl" then cmdString a "OUT" [intRepr pin, intRepr level]
    else none
  else none

/-- `SyrPump.set_rate` (scalar value, units both given or both absent). -/
def setRate (a : Int) (value : PyNum) (vu tu : Option String) : Option String :=
  match pyFloat value 4 3 with
  | none => none
  | some vs =>
    match vu, tu with
    | none, none => cmdString a "RAT" [vs]
    | some v, some t =>
      match from_dict_value VOLUME_UNITS v, from_dict_value TIME_UNITS t with
      | some vc, some tc => cmdString a "RAT" [vs, vc, tc]
      | _, _ => none
    | _, _ => none

/-- `SyrPump.set_volume` with a value only (the form reached from
`set_config`'s scalar rate-parameter path). -/
def setVolumeValue (a : Int) (value : PyNum) : Option String :=
  (pyFloat value 4 3).bind (fun s => cmdString a "VOL" [s])

/-- `SyrPump.set_direction`. -/
def setDirection (a : Int) (direction : String) : Option String :=
  (from_dict_value PUMP_DIRECTION direction).bind (fun d => cmdString a "DIR" [d])

/-- `SyrPump.set_trigger`, start/stop branch: each side encodes through the
`TRIGGER` table (`'_'` when unspecified), and the joined pattern is looked
up in `TRIGGER_START_STOP` to obtain the device code. -/
def encodeStartStop (start stop : Option String) : Option String :=
  let codeOf : Option String → Option String := fun s =>
    match s with
    | none => some "_"
    | some nm => from_dict_value TRIGGER nm
  match codeOf start, codeOf stop with
  | some c1, some c2 => from_dict_key TRIGGER_START_STOP (c1 ++ c2)
  | _, _ => none

/-- `SyrPump.get_trigger` with `ret_type='start stop code'`: reverse the
`TRIGGER_START_STOP` table and split the pattern into its two characters. -/
def decodeStartStopCode (code : String) : Option (String × String) :=
  match from_dict_value TRIGGER_START_STOP code with
  | none => none
  | some pat =>
    match pat.toList with
    | [c1, c2] => some (c1.toString, c2.toString)
    | _ => none

/-- `SyrPump.get_trigger` with `ret_type='start stop'`: additionally map
each side through `_from_dict_key(TRIGGER, ·)` (which asserts on `'_'`). -/
def decodeStartStopNames (code : String) : Option (String × String) :=
  match decodeStartStopCode code with
  | none => none
  | some (c1, c2) =>
    match from_dict_key TRIGGER c1, from_dict_key TRIGGER c2 with
    | some n1, some n2 => some (n1, n2)
    | _, _ => none

example : encodeStartStop (some "falling edge") none = some "ST" := by decide
example : decodeStartStopNames "ST" = none := by decide
example : decodeStartStopNames "FT" = some ("falling edge", "falling edge") := by decide

/-- One phase step of a declarative program in `set_config`'s `FUN` branch:
the `'function'` entry and the remaining dict items in order. -/
structure Step where
  function : String
  extra : List (String × StepVal)
deriving DecidableEq

/-- Follow-up commands of a rate-class step: `for _k, _v in func.items()`,
each key encoded through `COMMAND` (an unknown key fails there), `FUN`
keys skipped, `RATE_PARAM` keys dispatched to `set_rate` / `set_volume` /
`set_direction` with the scalar value, and other known keys silently
ignored.  (The `'function'` item itself always encodes to `FUN` and is
skipped, so only the extra items are iterated.)  Returns the commands
emitted so far and whether the step completed. -/
def rateFollowUps (a : Int) : List (String × StepVal) → List String → List String × Bool
  | [], acc => (acc, true)
  | (k, v) :: rest, acc =>
    match from_dict_value COMMAND k with
    | none => (acc, false)
    | some kc =>
      if kc == "FUN" then rateFollowUps a rest acc
      else if RATE_PARAM.contains kc then
        let emitted : Option String :=
          if kc == "RAT" then (stepValNum v).bind (fun x => setRate a x none none)
          else if kc == "VOL" then (stepValNum v).bind (fun x => setVolumeValue a x)
          else match v with
               | .strV s => setDirection a s
               | _ => none
        match emitted with
        | none => (acc, false)
        | some c => rateFollowUps a rest (acc ++ [c])
      else rateFollowUps a rest acc

/-- Compilation of one phase step by `SyrPump.set_config` (`FUN` branch,
lines 225-248): emit `set_phase(a, i)`, look up the function code, then
for a non-rate function extract the inline datum
(`assert len(data) == 1` when several extra items are present) and emit
`set_function`; for a rate-class function emit `set_function` with no
datum followed by the rate-parameter follow-ups.  Returns the emitted
command strings and whether the step succeeded. -/
def compileStep (a : Int) (phase : Int) (st : Step) : List String × Bool :=
  match setPhase a phase with
  | none => ([], false)
  | some c1 =>
    match from_dict_value PHASE_FUNCTION st.function with
    | none => ([c1], false)
    | some fcode =>
      if RATE_FUNCTION.contains fcode then
        match setFunction a st.function none with
        | none => ([c1], false)
        | some c2 => rateFollowUps a st.extra [c1, c2]
      else
        match st.extra with
        | [] =>
          match setFunction a st.function none with
          | none => ([c1], false)
          | some c2 => ([c1, c2], true)
        | [(_, v)] =>
          match setFunction a st.function (some v) with
          | none => ([c1], false)
          | some c2 => ([c1, c2], true)
        | _ => ([c1], false)

/-- Compilation of a whole program: steps at 1-based phase indices, stopping
at the first failing step and keeping everything already emitted. -/
def compileProg (a : Int) : Nat → List Step → List String × Bool
  | _, [] => ([], true)
  | i, st :: rest =>
    let r := compileStep a ((i : Int) + 1) st
    if r.2 then
      let r2 := compileProg a (i + 1) rest
      (r.1 ++ r2.1, r2.2)
    else r

example : compileStep 0 1 ⟨"jump", [("phase", .intV 5), ("count", .intV 2)]⟩ = (["0PHN1"], false) := by decide
example : compileStep 0 1 ⟨"jump", [("bogus", .intV 5)]⟩ = (["0PHN1", "0FUNJMP5"], true) := by decide
example : compileStep 0 1 ⟨"rate", [("bogus", .intV 5)]⟩ = (["0PHN1", "0FUNRAT"], false) := by decide
example : compileStep 0 1 ⟨"rate", [("rate", .floatV 25 1), ("direction", .strV "infuse")]⟩ = (["0PHN1", "0FUNRAT", "0RAT2.5", "0DIRINF"], true) := by decide

/-- The pop loop removes exactly the leading block of stop records (the
trailing block of the unreversed program) and fails on an all-stop list. -/
theorem popTrailingStops_eq (l : List FunRec) :
    popTrailingStops l =
      if l.all (fun r => r.function == "STP") then none
      else some (l.dropWhile (fun r => r.function == "STP")) := by
  induction l with
  | nil => rfl
  | cons r rest ih =>
    by_cases h : r.function = "STP" <;>
      simp [popTrailingStops, h, ih, List.dropWhile_cons]

/-- Characterization of the trailing-stop trimming of `SyrPump.get_config`. -/
theorem trimStops_eq (prog : List FunRec) :
    trimStops prog =
      if prog.all (fun r => r.function == "STP") then none
      else some ((prog.reverse.dropWhile (fun r => r.function == "STP")).reverse) := by
  rw [trimStops, popTrailingStops_eq, List.all_reverse]
  by_cases h : prog.all (fun r => r.function == "STP") <;> simp [h]

/-- Test device for C2: phases 1-3 read back as rate, jump, stop and
phases 4-41 as stop. -/
def c2Device1 : Nat → String := fun ph =>
  if ph == 1 then "RAT" else if ph == 2 then "JMP03" else "STP"

/-- Test device for C2: an explicit stop at phase 2 followed by a jump at
phase 3, all later phases stop. -/
def c2Device2 : Nat → String := fun ph =>
  if ph == 1 then "RAT" else if ph == 2 then "STP"
  else if ph == 3 then "JMP03" else "STP"

/-- C1: as stated the claim is false -- decoding the payload `02?OOR`
does not raise `DataOutOfRange`: the third character `?` is neither a
prompt letter nor `A`, so `_cmd` raises the fatal unknown-status
`ValueError` instead. -/
theorem c1_claim_counterexample :
    cmdParse "02?OOR" ≠ CmdOutcome.deviceError DeviceError.dataOutOfRange ∧
    cmdParse "02?OOR" = CmdOutcome.fatal := by decide

/-- C1 (amended): frame decode classifies on the third character: payload
`01I` yields a response with address 1, prompt `I` ("infusing") and no
data; `05A?S` yields address 5 with alarm `S`, surfaced as the non-fatal
warning "pump motor stalled", and any following data is still returned
(`05A?S2.5`); an error token must follow a status, so `02S?OOR` raises
`DataOutOfRange` while `02?OOR` (no status) is a fatal malformed-response
error, as are an `A` not followed by `?` and any unknown status
character. -/
theorem c1_frame_decode :
    cmdParse "01I" = .ok ⟨1, .prompt 'I', none⟩ none ∧
    from_dict_key PROMPT "I" = some "infusing" ∧
    cmdParse "05A?S" = .ok ⟨5, .alarm 'S', none⟩ (some "pump motor stalled") ∧
    cmdParse "05A?S2.5" = .ok ⟨5, .alarm 'S', some "2.5"⟩ (some "pump motor stalled") ∧
    cmdParse "02S?OOR" = .deviceError .dataOutOfRange ∧
    cmdParse "02?OOR" = .fatal ∧
    cmdParse "05AXS" = .fatal ∧
    cmdParse "01Y5" = .fatal := by decide

/-- C2: as stated the claim is false -- on a device whose phases 1-3 read
back as rate, jump, stop and phases 4-41 as stop, the extractor does not
return a 3-element program: the phase-3 stop is itself trailing and is
trimmed as well, leaving 2 elements. -/
theorem c2_claim_counterexample :
    (extractProgram c2Device1).map List.length ≠ some 3 ∧
    (extractProgram c2Device1).map List.length = some 2 := by decide

/-- C2 (amended): the extractor sweeps phase slots 1..41 in order and then
removes exactly the trailing phases whose function is the default stop:
on the rate/jump/stop device it returns the 2-element program
[rate, jump] (the phase-3 stop is trailing too), an explicit stop at
phase 2 followed by a jump at phase 3 is never removed, and in general
the trimming loop removes precisely the maximal trailing block of stop
phases (failing only on an all-stop table). -/
theorem c2_trailing_stop_trimming :
    extractProgram c2Device1 = some [⟨"rate", none⟩, ⟨"jump", some (.intD 0)⟩] ∧
    extractProgram c2Device2 =
      some [⟨"rate", none⟩, ⟨"stop", none⟩, ⟨"jump", some (.intD 0)⟩] ∧
    ∀ prog : List FunRec, trimStops prog =
      if prog.all (fun r => r.function == "STP") then none
      else some ((prog.reverse.dropWhile (fun r => r.function == "STP")).reverse) :=
  ⟨by decide, by decide, trimStops_eq⟩

/-- C10: when all 41 phase slots read back as the default stop, the
trimming loop pops the program list empty and then indexes into it, so
extraction fails (`IndexError`) instead of returning an empty program;
trimming succeeds exactly when at least one swept phase is non-stop. -/
theorem c10_all_stop_extraction_fails :
    extractProgram (fun _ => "STP") = none ∧
    ∀ prog : List FunRec,
      trimStops prog = none ↔ prog.all (fun r => r.function == "STP") = true := by
  refine ⟨by decide, fun prog => ?_⟩
  rw [trimStops_eq]
  by_cases h : prog.all (fun r => r.function == "STP") <;> simp [h]

/-- The string-valued registry tables of the class (the `ERROR` table maps
to exception classes, not strings, and is only ever decoded). -/
def registryTables : List (List (String × DVal)) :=
  [COMMAND, PROMPT, ALARM, PUMP_DIRECTION, TRIGGER, TRIGGER_START_STOP,
   TRIGGER_SETUP, PHASE_FUNCTION, VOLUME_UNITS, TIME_UNITS]

/-- Round-trip check for one table: every code decodes to its first
(canonical) alias, the canonical name and every stored alias encode back
to the code. -/
def tableRT (d : List (String × DVal)) : Bool :=
  d.all fun p =>
    match from_dict_key d p.1, canonOf p.2 with
    | some nm, some cn =>
        nm == cn &&
        from_dict_value d nm == some p.1 &&
        (match p.2 with
         | .scalar _ => true
         | .aliases l => l.all fun al => from_dict_value d al == some p.1)
    | _, _ => false

/-- C3: for every code in a registry table, decode returns the first
(canonical) alias and encoding the canonical name or any stored alias
returns the code, giving both round trips; decode fails when the code is
absent, and encode fails whenever the number of matching entries is not
exactly one. -/
theorem c3_registry_roundtrip :
    registryTables.all tableRT = true ∧
    (∀ (d : List (String × DVal)) (c : String),
      (∀ p ∈ d, p.1 ≠ c) → from_dict_key d c = none) ∧
    (∀ (d : List (String × DVal)) (v : String),
      (d.filter (fun p => valMatches v p.2)).length ≠ 1 → from_dict_value d v = none) := by
  refine ⟨by decide, fun d c h => ?_, fun d v h => ?_⟩
  · have hf : d.find? (fun p => p.1 == c) = none :=
      List.find?_eq_none.mpr (fun p hp => by simpa using h p hp)
    simp [from_dict_key, hf]
  · rw [from_dict_value]
    rcases hf : d.filter (fun p => valMatches v p.2) with _ | ⟨p, _ | ⟨q, tail⟩⟩
    · rw [hf]
    · exact absurd (by rw [hf]; rfl) h
    · rw [hf]

/-- C3 witness at a concrete input: the code `Z` is absent from the prompt
table, and decoding it fails. -/
theorem c3_registry_roundtrip_witness :
    (∀ p ∈ PROMPT, p.1 ≠ "Z") ∧ from_dict_key PROMPT "Z" = none :=
  ⟨by decide, c3_registry_roundtrip.2.1 PROMPT "Z" (by decide)⟩

/-- C4: as stated the claim is false -- (falling edge, unspecified) is a
valid pair (pattern `F_`, device code `ST`), but decoding `ST` back to a
(start, stop) pair of edge/level names fails: the `_` placeholder is not
a key of the edge table, so `_from_dict_key(TRIGGER, '_')` raises instead
of returning the pair. -/
theorem c4_claim_counterexample :
    encodeStartStop (some "falling edge") none = some "ST" ∧
    (encodeStartStop (some "falling edge") none).bind decodeStartStopNames = none := by
  decide

/-- C4 (amended): for the four fully-specified edge pairs of the table,
decoding the encoded device code yields the same pair of canonical names
back; for every one of the 13 (start, stop) patterns -- the one-sided and
off patterns included -- the round trip holds at the raw pattern/code
level (`ret_type='start stop code'`), but name-level decoding is only
possible when both sides are specified. -/
theorem c4_trigger_roundtrip :
    ([("falling edge", "falling edge"), ("falling edge", "rising edge"),
      ("rising edge", "rising edge"), ("rising edge", "falling edge")].all
      fun pr =>
        match encodeStartStop (some pr.1) (some pr.2) with
        | some code => decodeStartStopNames code == some (pr.1, pr.2)
        | none => false) = true ∧
    (TRIGGER_START_STOP.all fun p =>
      match canonOf p.2, p.1.toList with
      | some code, [c1, c2] =>
          from_dict_value TRIGGER_START_STOP code == some p.1 &&
          decodeStartStopCode code == some (c1.toString, c2.toString)
      | _, _ => false) = true := by decide

/-- C5: the numeric encoder rejects every value outside
`0 ≤ value ≤ 10^max_digits − 1` before rounding or rendering
(`ValueOutOfRange`, a failed assertion), and succeeds on every in-range
value, whose rendered rounded text is then the only thing truncation is
applied to. -/
theorem c5_range_precheck (x : PyNum) (maxDigits maxDecimal : Nat)
    (h : 1 ≤ maxDigits) :
    pyFloat x maxDigits maxDecimal = none ↔
      (x.val < 0 ∨ ((pyNines maxDigits : Nat) : ℚ) < x.val) := by
  have hd0 : ¬ maxDigits = 0 := by omega
  have hpos : (0 : ℚ) < 10 ^ x.scale := by positivity
  have h1 : x.val < 0 ↔ x.mant < 0 := by
    rw [PyNum.val, div_lt_iff₀ hpos]
    simp
  have h2 : ((pyNines maxDigits : Nat) : ℚ) < x.val ↔
      (pyNines maxDigits : Int) * 10 ^ x.scale < x.mant := by
    rw [PyNum.val, lt_div_iff₀ hpos]
    constructor <;> intro hh <;> exact_mod_cast hh
  rw [pyFloat, if_neg hd0]
  constructor
  · intro hnone
    by_cases hc : x.mant < 0 ∨ (pyNines maxDigits : Int) * 10 ^ x.scale < x.mant
    · rcases hc with hc | hc
      · exact Or.inl (h1.mpr hc)
      · exact Or.inr (h2.mpr hc)
    · rw [if_neg hc] at hnone
      cases hnone
  · intro hval
    have hc : x.mant < 0 ∨ (pyNines maxDigits : Int) * 10 ^ x.scale < x.mant := by
      rcases hval with hv | hv
      · exact Or.inl (h1.mp hv)
      · exact Or.inr (h2.mp hv)
    rw [if_pos hc]

/-- C5 witness at a concrete input: `12345` with a 4-digit budget. -/
theorem c5_range_precheck_witness :
    1 ≤ 4 ∧ (pyFloat ⟨12345, 0, true⟩ 4 3 = none ↔
      ((⟨12345, 0, true⟩ : PyNum).val < 0 ∨
        ((pyNines 4 : Nat) : ℚ) < (⟨12345, 0, true⟩ : PyNum).val)) :=
  ⟨by decide, c5_range_precheck ⟨12345, 0, true⟩ 4 3 (by decide)⟩

/-- C6: as stated the claim is false -- numeric encode of `12345.0` with
`max_digits=4` does not return the left-truncated string `"2345"`: the
value exceeds `9999`, so the precondition assertion rejects it before any
rendering. -/
theorem c6_claim_counterexample :
    pyFloat ⟨12345, 0, true⟩ 4 3 ≠ some "2345" ∧
    pyFloat ⟨12345, 0, true⟩ 4 3 = none := by decide

/-- C6 (amended): numeric encode of `3.14159` with `max_digits=4`,
`max_decimal=3` returns `"3.142"`; encode of `12345.0` with
`max_digits=4` is rejected as out of range (left-truncation applies only
to in-range values whose rendered text overflows, e.g. `1234.5` →
`"234.5"`). -/
theorem c6_numeric_encode :
    pyFloat ⟨314159, 5, true⟩ 4 3 = some "3.142" ∧
    pyFloat ⟨12345, 0, true⟩ 4 3 = none ∧
    pyFloat ⟨12345, 1, true⟩ 4 3 = some "234.5" := by decide

/-- C7: the fractional `seconds.tenths` pattern is indeed checked first
and only accepted for `PAS`, and a zero pause datum becomes the trigger
sentinel; but under the general rule the code consumes only the single
second-to-last character `data[-2]` as the datum (although it strips two
characters from the function name), so `JMP12` decodes to datum 1, and
`PAS15` to datum 1, not 15. -/
theorem c7_datum_decode :
    getFunction "PAS1.5" = some ⟨"PAS", some (.fracD 1 5)⟩ ∧
    getFunction "PAS15" = some ⟨"PAS", some (.intD 1)⟩ ∧
    getFunction "JMP12" = some ⟨"JMP", some (.intD 1)⟩ ∧
    getFunction "PAS00" = some ⟨"PAS", some .trigger⟩ := by decide

/-- C8: as stated the claim is false -- a step carrying more than one
inline datum is rejected, but only after the phase-select command for the
step has already been emitted: the command trace is not empty. -/
theorem c8_claim_counterexample :
    (compileStep 0 1 ⟨"jump", [("phase", .intV 5), ("count", .intV 2)]⟩).2 = false ∧
    (compileStep 0 1 ⟨"jump", [("phase", .intV 5), ("count", .intV 2)]⟩).1 ≠ [] := by
  decide

/-- C8 (amended): a step with more than one inline datum is rejected after
the phase-select command has been emitted; an unknown field on a
rate-class step is rejected after both the phase-select and function
commands; an unknown single field on a non-rate step is not rejected at
all -- its value is sent as the inline datum; and commands of earlier
valid steps remain emitted when a later step fails. -/
theorem c8_validation_order :
    compileStep 0 1 ⟨"jump", [("phase", .intV 5), ("count", .intV 2)]⟩ =
      (["0PHN1"], false) ∧
    compileStep 0 1 ⟨"rate", [("bogus", .intV 5)]⟩ =
      (["0PHN1", "0FUNRAT"], false) ∧
    compileStep 0 1 ⟨"jump", [("bogus", .intV 5)]⟩ =
      (["0PHN1", "0FUNJMP5"], true) ∧
    compileProg 0 0 [⟨"rate", []⟩, ⟨"jump", [("phase", .intV 5), ("count", .intV 2)]⟩] =
      (["0PHN1", "0FUNRAT", "0PHN2"], false) := by decide

/-- C9: as stated the claim is false -- an out-of-range safe-mode timeout
(300 > 255) supplied to the communication-mode setter is not rejected
locally: the command is emitted with the raw value. -/
theorem c9_claim_counterexample :
    setComMode 0 "safe" (some 300) = some "0SAF300" := by decide

/-- C9 (amended): address (0-99), phase (1-41) and ttl level (0-1) are
range-checked locally before transmission, and a pause number is limited
to 0-99 by the float encoder's digit budget; but a loop count and a
safe-mode timeout are not checked locally -- out-of-range values are sent
to the device raw. -/
theorem c9_range_checks :
    (∀ a ph : Int, (setPhase a ph).isSome ↔
      ((0 ≤ a ∧ a ≤ 99) ∧ (1 ≤ ph ∧ ph ≤ 41))) ∧
    (∀ a lvl : Int, (setTtlOutput a lvl 5).isSome ↔
      ((0 ≤ a ∧ a ≤ 99) ∧ (0 ≤ lvl ∧ lvl ≤ 1))) ∧
    (∀ n : Int, (setFunction 0 "pause" (some (.intV n))).isSome ↔
      (0 ≤ n ∧ n ≤ 99)) ∧
    setComMode 0 "safe" (some 300) = some "0SAF300" ∧
    setFunction 0 "loop for" (some (.intV 200)) = some "0FUNLOP200" := by
  refine ⟨fun a ph => ?_, fun a lvl => ?_, fun n => ?_, by decide, by decide⟩
  · have h1 : check_range ph "phase" = decide (1 ≤ ph ∧ ph ≤ 41) := rfl
    have h2 : check_range a "address" = decide (0 ≤ a ∧ a ≤ 99) := rfl
    by_cases hph : 1 ≤ ph ∧ ph ≤ 41 <;> by_cases ha : 0 ≤ a ∧ a ≤ 99 <;>
      simp [setPhase, cmdString, h1, h2, hph, ha]
  · have h1 : check_range lvl "ttl" = decide (0 ≤ lvl ∧ lvl ≤ 1) := rfl
    have h2 : check_range a "address" = decide (0 ≤ a ∧ a ≤ 99) := rfl
    by_cases hl : 0 ≤ lvl ∧ lvl ≤ 1 <;> by_cases ha : 0 ≤ a ∧ a ≤ 99 <;>
      simp [setTtlOutput, TTL_OUTPUT_PIN, cmdString, h1, h2, hl, ha]
  · have h : setFunction 0 "pause" (some (.intV n)) =
        (match pyFloat ⟨n, 0, false⟩ 2 1 with
         | none => none
         | some s => cmdString 0 "FUN" ["PAS", s]) := rfl
    have h2 : pyFloat ⟨n, 0, false⟩ 2 1 =
        if n < 0 ∨ (pyNines 2 : Int) * 10 ^ (0 : Nat) < n then none
        else some (truncRender ⟨n, 0, false⟩ 2 1) := rfl
    rw [h, h2, show (pyNines 2 : Int) * 10 ^ (0 : Nat) = 99 by norm_num [pyNines]]
    by_cases hc : n < 0 ∨ 99 < n
    · rw [if_pos hc]
      simp only [Option.isSome_none, Bool.false_eq_true, false_iff]
      omega
    · rw [if_neg hc]
      have hcmd : (cmdString 0 "FUN" ["PAS", truncRender ⟨n, 0, false⟩ 2 1]).isSome
          = true := rfl
      simp only [hcmd, true_iff]
      omega

end SyrPump
